import Mathlib

/-!
# Verification of the budget-constrained PyPI crawl-and-download pipeline

Shallow embedding of `src/pypi_crawler.py` (class `GitHubActionsPyPICrawler`).

Modelling conventions:
* Declared file sizes are natural numbers of bytes (`size`); a missing
  `size` key in the JSON is `none`, mirroring `file_info.get('size', 0)`.
* Megabyte quantities (`get_file_size_mb`, `current_total_size`,
  `max_size_mb`, `max_total_size_mb`) are exact rationals.  The Python code
  uses binary floating point; the admission check and the consumption
  update evaluate the same expression there, so the claims settled here do
  not depend on rounding behaviour.
* The external timestamp parser (`datetime.fromisoformat`) is abstracted:
  a `ReleaseFile` carries `upload_time : Option ℤ`, the parse result in
  microseconds since the Unix epoch; `none` models a missing
  `upload_time_iso_8601` field or a malformed timestamp (the `KeyError` /
  `ValueError` caught at line 59 of the source).
* HTTP transport is abstracted into oracles: `get_info : String → Option
  PackageInfo` models `get_package_info` (metadata endpoint; `none` is any
  request failure), and `fetch_ok : String → Bool` models whether the
  artifact `GET` at a URL succeeds (`requests` exceptions caught at line
  127).  The artifact bytes themselves are irrelevant to every claim.
* The filesystem download directory is a list of filenames (`store`);
  `os.path.exists` is list membership, writing the artifact conses the
  filename.  The sidecar metadata file written by `save_package_metadata`
  carries no decision logic and is abstracted into the success path.
* Side effects are made observable through an `Event` trace: metadata
  fetches, artifact fetches, store writes and the inter-candidate
  `time.sleep(0.5)` delay.
-/

namespace PyPICrawler

/-- One distributable artifact of a release, from
`releases[version][i]` of the package JSON: `filename`, download `url`,
declared byte `size` (`none` = missing key, read via
`file_info.get('size', 0)`), and `upload_time`, the abstracted result of
parsing `upload_time_iso_8601` (`none` = missing or malformed). -/
structure ReleaseFile where
  filename : String
  url : String
  size : Option ℕ
  upload_time : Option ℤ
deriving DecidableEq, Repr

/-- Package metadata as consumed by the crawler: `info.version` (`none`
models a missing key, whose `KeyError` the source catches) and the
`releases` mapping from version string to its ordered release-file list,
modelled as an association list. -/
structure PackageInfo where
  version : Option String
  releases : List (String × List ReleaseFile)
deriving DecidableEq, Repr

/-- `datetime(2025, 7, 1)` (UTC) as microseconds since the Unix epoch:
the fixed eligibility cutoff of `is_updated_since_july_2025`. -/
def july_2025_cutoff : ℤ := 1751328000000000

/-- Python's `str.endswith(suffix)` (source lines 77 and 86) as a
character-list suffix test. -/
def ends_with (s suffix : String) : Bool := suffix.data.isSuffixOf s.data

/-- Embeds `get_file_size_mb` (source lines 63-66):
`file_info.get('size', 0) / (1024 * 1024)`. -/
def get_file_size_mb (file_info : ReleaseFile) : ℚ :=
  ((file_info.size.getD 0 : ℕ) : ℚ) / (1024 * 1024)

/-- Embeds `is_updated_since_july_2025` (source lines 44-61): look up the
latest version in `releases`; if its file list is non-empty, compare the
first file's parsed upload instant against the fixed cutoff
(`upload_date >= cutoff_date`).  Every missing key, empty list or parse
failure falls through to `False`. -/
def is_updated_since_july_2025 (info : PackageInfo) : Bool :=
  match info.version with
  | none => false
  | some latest_version =>
    match info.releases.lookup latest_version with
    | none => false
    | some [] => false
    | some (first_file :: _) =>
      match first_file.upload_time with
      | none => false
      | some upload_date => decide (july_2025_cutoff ≤ upload_date)

/-- First pass of the selection loop in `download_package` (source lines
76-81): the first file whose name ends in `.tar.gz` and whose size in MB
is at most `max_size_mb`.  An oversized `.tar.gz` does not stop the scan. -/
def find_tar_gz (max_size_mb : ℚ) : List ReleaseFile → Option ReleaseFile
  | [] => none
  | file_info :: rest =>
    if ends_with file_info.filename ".tar.gz" ∧ get_file_size_mb file_info ≤ max_size_mb then
      some file_info
    else find_tar_gz max_size_mb rest

/-- Second pass of the selection loop (source lines 84-90): same scan for
`.whl` files. -/
def find_whl (max_size_mb : ℚ) : List ReleaseFile → Option ReleaseFile
  | [] => none
  | file_info :: rest =>
    if ends_with file_info.filename ".whl" ∧ get_file_size_mb file_info ≤ max_size_mb then
      some file_info
    else find_whl max_size_mb rest

/-- The `suitable_file` computed at source lines 75-90: prefer the first
under-cap `.tar.gz`, else the first under-cap `.whl`, else nothing. -/
def suitable_file (max_size_mb : ℚ) (releases : List ReleaseFile) : Option ReleaseFile :=
  match find_tar_gz max_size_mb releases with
  | some file_info => some file_info
  | none => find_whl max_size_mb releases

/-- The crawler object: configuration fields set in `__init__` (source
lines 15-19) plus the two pieces of mutable session state — the running
megabyte total `current_total_size` and the download directory contents
`store` (list of filenames present on disk). -/
structure Crawler where
  max_packages : ℕ
  max_size_mb : ℚ
  max_total_size_mb : ℚ
  current_total_size : ℚ
  store : List String
deriving DecidableEq, Repr

/-- `__init__` (source lines 15-31): caller-chosen `max_packages` and
`max_size_mb`, hardcoded 500 MB aggregate cap, zero consumed.  The
download directory may pre-exist (`os.makedirs(…, exist_ok=True)`), so
its initial contents `store` are a parameter. -/
def Crawler.init (max_packages : ℕ) (max_size_mb : ℚ) (store : List String) : Crawler :=
  { max_packages := max_packages
    max_size_mb := max_size_mb
    max_total_size_mb := 500
    current_total_size := 0
    store := store }

/-- Observable side effects of a session, in order of occurrence. -/
inductive Event where
  | fetchInfo (package_name : String)
  | fetchArtifact (url : String)
  | storeWrite (filename : String)
  | delay
deriving DecidableEq, Repr

/-- Embeds `download_package` (source lines 68-129).  Returns the boolean
result, the updated crawler and the event trace.  Paths, in source order:
missing `version`/`releases` key or no suitable file → `False` (lines
71-72 `KeyError` caught at 127, lines 123-125); aggregate-budget refusal
`current_total_size + file_size_mb > max_total_size_mb` → `False` (lines
96-98); file already on disk → `True` with no fetch and no consumption
(lines 105-107); transport failure on the artifact `GET` → the exception
is caught, `False`, state unchanged (lines 110-111 and 127-129);
otherwise write the file, add `file_size_mb` to the running total and
return `True` (lines 113-122). -/
def download_package (fetch_ok : String → Bool) (c : Crawler) (info : PackageInfo) :
    Bool × Crawler × List Event :=
  match info.version with
  | none => (false, c, [])
  | some latest_version =>
    match info.releases.lookup latest_version with
    | none => (false, c, [])
    | some releases =>
      match suitable_file c.max_size_mb releases with
      | none => (false, c, [])
      | some file_info =>
        let file_size_mb := get_file_size_mb file_info
        if c.max_total_size_mb < c.current_total_size + file_size_mb then
          (false, c, [])
        else if file_info.filename ∈ c.store then
          (true, c, [])
        else if fetch_ok file_info.url then
          (true,
           { c with
              current_total_size := c.current_total_size + file_size_mb
              store := file_info.filename :: c.store },
           [Event.fetchArtifact file_info.url, Event.storeWrite file_info.filename])
        else
          (false, c, [Event.fetchArtifact file_info.url])

/-- The hardcoded fallback list of `get_popular_packages_fallback`
(source lines 152-162). -/
def popular_packages : List String :=
  ["requests", "urllib3", "certifi", "charset-normalizer",
   "pip", "setuptools", "wheel", "packaging",
   "numpy", "pandas", "matplotlib", "scipy",
   "flask", "django", "fastapi", "starlette",
   "boto3", "botocore", "aws-cdk-lib", "aws-cli",
   "tensorflow", "torch", "transformers", "openai",
   "pydantic", "sqlalchemy", "alembic", "click",
   "pytest", "black", "flake8", "mypy",
   "jupyter", "notebook", "ipython", "ipykernel"]

/-- Embeds `get_popular_packages_fallback` (source lines 149-165). -/
def get_popular_packages_fallback : List String := popular_packages

/-- `title.text.split()[0]` (source line 191): Python's `split()` drops
leading whitespace, so the first element is the maximal non-whitespace
run that follows it; `none` models the `IndexError` raised on a
whitespace-only title. -/
def first_token (s : String) : Option String :=
  let tok := (s.data.dropWhile Char.isWhitespace).takeWhile fun ch => !ch.isWhitespace
  if tok = [] then none else some (String.mk tok)

/-- The per-item loop of `get_recent_packages_from_rss` (source lines
187-193) over one feed's items.  An item is `Option String`: `none` is a
missing `title` element or `None` text (skipped by the guard at line
189), `some ""` an empty text (also skipped — falsy).  The first token of
each remaining title is appended if not already present.  A
whitespace-only title raises `IndexError`, aborting this feed's `try`
block while keeping the names accumulated so far: the `Bool` result is
`false` on that abort. -/
def process_items (acc : List String) : List (Option String) → List String × Bool
  | [] => (acc, true)
  | none :: rest => process_items acc rest
  | some title :: rest =>
    if title = "" then process_items acc rest
    else
      match first_token title with
      | none => (acc, false)
      | some package_name =>
        process_items (if package_name ∈ acc then acc else acc ++ [package_name]) rest

/-- The per-URL loop of `get_recent_packages_from_rss` (source lines
177-201).  Each feed outcome is `none` (transport or XML-parse failure —
the whole `try` body fails before any item is processed) or `some items`.
After a feed is processed without exception, if the accumulated list is
non-empty it is returned truncated to `max_packages` (lines 196-197);
otherwise, and on any exception, the next URL is tried.  `none` from this
loop means every URL was exhausted. -/
def rss_loop (max_packages : ℕ) (acc : List String) :
    List (Option (List (Option String))) → Option (List String)
  | [] => none
  | none :: rest => rss_loop max_packages acc rest
  | some items :: rest =>
    match process_items acc items with
    | (acc', true) =>
      if acc' ≠ [] then some (acc'.take max_packages) else rss_loop max_packages acc' rest
    | (acc', false) => rss_loop max_packages acc' rest

/-- Embeds `get_recent_packages_from_rss` (source lines 167-205): try the
two RSS feeds in order; if neither returns a non-empty list, fall back to
`get_popular_packages_fallback()[:max_packages]` (line 205). -/
def get_recent_packages_from_rss
    (feed_updates feed_packages : Option (List (Option String))) (max_packages : ℕ) :
    List String :=
  match rss_loop max_packages [] [feed_updates, feed_packages] with
  | some packages => packages
  | none => get_popular_packages_fallback.take max_packages

/-- The summary report of `create_summary_report` (source lines 237-248):
number of downloaded packages, `round(current_total_size, 2)`, and the
ordered list of downloaded package names. -/
structure Report where
  total_packages_downloaded : ℕ
  total_size_mb : ℚ
  packages : List String
deriving DecidableEq, Repr

/-- `round(x, 2)`: nearest-integer rounding at two decimal places.
(Python's `round` breaks exact ties to even; no claim here depends on the
tie-breaking direction.) -/
def round2 (x : ℚ) : ℚ := ((round (x * 100) : ℤ) : ℚ) / 100

/-- Embeds `create_summary_report` (source lines 237-248); the wall-clock
`download_time` field carries no logic and is omitted. -/
def create_summary_report (c : Crawler) (downloaded_packages : List String) : Report :=
  { total_packages_downloaded := downloaded_packages.length
    total_size_mb := round2 c.current_total_size
    packages := downloaded_packages }

/-- The candidate loop of `crawl_and_download` (source lines 281-305),
carrying `downloaded_count`.  Per candidate: break before anything else
once `downloaded_count >= max_packages` (lines 283-285); fetch metadata
(`continue` on `None`, lines 290-292 — note `continue` skips the sleep at
line 305); eligibility filter (`continue` if stale, lines 295-297);
otherwise run `download_package`, append the name and bump the count on
`True` (lines 300-302), and sleep (line 305, the `Event.delay`).
Returns (downloaded names, final crawler, event trace). -/
def crawl_loop (get_info : String → Option PackageInfo) (fetch_ok : String → Bool) :
    List String → Crawler → ℕ → List String × Crawler × List Event
  | [], c, _ => ([], c, [])
  | package_name :: rest, c, downloaded_count =>
    if c.max_packages ≤ downloaded_count then ([], c, [])
    else
      match get_info package_name with
      | none =>
        let r := crawl_loop get_info fetch_ok rest c downloaded_count
        (r.1, r.2.1, Event.fetchInfo package_name :: r.2.2)
      | some info =>
        if is_updated_since_july_2025 info then
          match download_package fetch_ok c info with
          | (ok, c', download_events) =>
            let r := crawl_loop get_info fetch_ok rest c'
              (downloaded_count + if ok then 1 else 0)
            ((if ok then package_name :: r.1 else r.1), r.2.1,
             Event.fetchInfo package_name :: (download_events ++ Event.delay :: r.2.2))
        else
          let r := crawl_loop get_info fetch_ok rest c downloaded_count
          (r.1, r.2.1, Event.fetchInfo package_name :: r.2.2)

/-- Embeds `crawl_and_download` (source lines 267-315) on an
already-resolved candidate list: run the candidate loop from a zero
download count.  (Report creation, source line 310, is
`create_summary_report` applied to the results.) -/
def crawl_and_download (get_info : String → Option PackageInfo) (fetch_ok : String → Bool)
    (c : Crawler) (package_list : List String) : List String × Crawler × List Event :=
  crawl_loop get_info fetch_ok package_list c 0

/-! ## Helper lemmas -/

/-- Case analysis of `download_package`: either the crawler state is
returned unchanged, or a suitable file was selected, admitted by the
aggregate-budget check, fetched and written, and exactly its megabyte
size was added to the running total. -/
lemma download_package_shape (fetch_ok : String → Bool) (c : Crawler) (info : PackageInfo) :
    (download_package fetch_ok c info).2.1 = c ∨
    ∃ latest_version releases file_info,
      info.version = some latest_version ∧
      info.releases.lookup latest_version = some releases ∧
      suitable_file c.max_size_mb releases = some file_info ∧
      c.current_total_size + get_file_size_mb file_info ≤ c.max_total_size_mb ∧
      (download_package fetch_ok c info).2.1 =
        { c with
            current_total_size := c.current_total_size + get_file_size_mb file_info
            store := file_info.filename :: c.store } := by
  rcases hv : info.version with _ | v
  · exact Or.inl (by simp [download_package, hv])
  rcases hr : info.releases.lookup v with _ | rels
  · exact Or.inl (by simp [download_package, hv, hr])
  rcases hf : suitable_file c.max_size_mb rels with _ | f
  · exact Or.inl (by simp [download_package, hv, hr, hf])
  by_cases h1 : c.max_total_size_mb < c.current_total_size + get_file_size_mb f
  · exact Or.inl (by simp [download_package, hv, hr, hf, h1])
  by_cases h2 : f.filename ∈ c.store
  · exact Or.inl (by simp [download_package, hv, hr, hf, h1, h2])
  by_cases h3 : fetch_ok f.url
  · exact Or.inr ⟨v, rels, f, rfl, hr, hf, le_of_not_lt h1,
      by simp [download_package, hv, hr, hf, h1, h2, h3]⟩
  · exact Or.inl (by simp [download_package, hv, hr, hf, h1, h2, h3])


/-- One `download_package` call keeps `current_total_size` at or below
the aggregate cap and leaves every configuration field unchanged. -/
lemma download_package_invariant (fetch_ok : String → Bool) (c : Crawler) (info : PackageInfo)
    (h : c.current_total_size ≤ c.max_total_size_mb) :
    (download_package fetch_ok c info).2.1.current_total_size ≤ c.max_total_size_mb ∧
    (download_package fetch_ok c info).2.1.max_total_size_mb = c.max_total_size_mb ∧
    (download_package fetch_ok c info).2.1.max_size_mb = c.max_size_mb ∧
    (download_package fetch_ok c info).2.1.max_packages = c.max_packages := by
  rcases download_package_shape fetch_ok c info with hs | ⟨v, rels, f, _, _, _, hadm, hs⟩
  · rw [hs]; exact ⟨h, rfl, rfl, rfl⟩
  · rw [hs]; exact ⟨hadm, rfl, rfl, rfl⟩

/-- The candidate loop preserves the budget invariant and the aggregate
cap. -/
lemma crawl_loop_invariant (get_info : String → Option PackageInfo) (fetch_ok : String → Bool)
    (package_list : List String) (c : Crawler) (downloaded_count : ℕ)
    (h : c.current_total_size ≤ c.max_total_size_mb) :
    (crawl_loop get_info fetch_ok package_list c downloaded_count).2.1.current_total_size ≤
      c.max_total_size_mb ∧
    (crawl_loop get_info fetch_ok package_list c downloaded_count).2.1.max_total_size_mb =
      c.max_total_size_mb := by
  induction package_list generalizing c downloaded_count with
  | nil => exact ⟨h, rfl⟩
  | cons name rest ih =>
    rw [crawl_loop]
    by_cases hmax : c.max_packages ≤ downloaded_count
    · rw [if_pos hmax]; exact ⟨h, rfl⟩
    rcases hi : get_info name with _ | info
    · simpa [hmax, hi] using ih c downloaded_count h
    by_cases helig : is_updated_since_july_2025 info = true
    · obtain ⟨h1, h2, _, _⟩ := download_package_invariant fetch_ok c info h
      have := ih (download_package fetch_ok c info).2.1
        (downloaded_count + if (download_package fetch_ok c info).1 then 1 else 0)
        (h2 ▸ h1)
      simpa [hmax, hi, helig, h2] using this
    · simpa [hmax, hi, helig] using ih c downloaded_count h

/-- Rounding to two decimal places never pushes a value at or below 500
above 500. -/
lemma round2_le_500 (x : ℚ) (hx : x ≤ 500) : round2 x ≤ 500 := by
  have h1 : round (x * 100) ≤ (50000 : ℤ) := by
    rw [round_eq]
    have : x * 100 + 1 / 2 ≤ ((50000 : ℤ) : ℚ) + 1 / 2 := by push_cast; linarith
    calc ⌊x * 100 + 1 / 2⌋ ≤ ⌊((50000 : ℤ) : ℚ) + 1 / 2⌋ := Int.floor_mono this
      _ = 50000 := by rw [Int.floor_int_add]; norm_num
  rw [round2]
  rw [div_le_iff₀ (by norm_num : (0 : ℚ) < 100)]
  calc ((round (x * 100) : ℤ) : ℚ) ≤ ((50000 : ℤ) : ℚ) := by exact_mod_cast h1
    _ = 500 * 100 := by norm_num

/-! ## C1 -/

/-- C1: the aggregate-budget invariant.  Each `download_package` call
admits a file only when `current_total_size + file_size_mb` stays within
`max_total_size_mb` and only admitted downloads increase the total, so
the invariant `current_total_size ≤ max_total_size_mb` is preserved by
every executor call; consequently a whole session started from
`Crawler.init` (cap 500 MB, zero consumed) ends with
`current_total_size ≤ 500` and the written report's `total_size_mb`
never exceeds 500. -/
theorem consumed_le_aggregate_cap :
    (∀ (fetch_ok : String → Bool) (c : Crawler) (info : PackageInfo),
      c.current_total_size ≤ c.max_total_size_mb →
      (download_package fetch_ok c info).2.1.current_total_size ≤
        (download_package fetch_ok c info).2.1.max_total_size_mb) ∧
    (∀ (get_info : String → Option PackageInfo) (fetch_ok : String → Bool)
       (max_packages : ℕ) (max_size_mb : ℚ) (store package_list : List String),
      (crawl_and_download get_info fetch_ok (Crawler.init max_packages max_size_mb store)
          package_list).2.1.current_total_size ≤ 500 ∧
      (create_summary_report
          (crawl_and_download get_info fetch_ok (Crawler.init max_packages max_size_mb store)
              package_list).2.1
          (crawl_and_download get_info fetch_ok (Crawler.init max_packages max_size_mb store)
              package_list).1).total_size_mb ≤ 500) := by
  constructor
  · intro fetch_ok c info h
    obtain ⟨h1, h2, _, _⟩ := download_package_invariant fetch_ok c info h
    rw [h2]; exact h1
  · intro get_info fetch_ok max_packages max_size_mb store package_list
    have h0 : (Crawler.init max_packages max_size_mb store).current_total_size ≤
        (Crawler.init max_packages max_size_mb store).max_total_size_mb := by
      simp [Crawler.init]
    obtain ⟨h1, _⟩ := crawl_loop_invariant get_info fetch_ok package_list
      (Crawler.init max_packages max_size_mb store) 0 h0
    refine ⟨h1, ?_⟩
    exact round2_le_500 _ h1

/-- Witness for C1 at a concrete crawler state and package. -/
theorem consumed_le_aggregate_cap_witness :
    (download_package (fun _ => true)
        (Crawler.init 5 100 [])
        ⟨some "1.0", [("1.0", [⟨"pkg-1.0.tar.gz", "u", some 1048576, some 1751328000000000⟩])]⟩
      ).2.1.current_total_size ≤
      (download_package (fun _ => true)
        (Crawler.init 5 100 [])
        ⟨some "1.0", [("1.0", [⟨"pkg-1.0.tar.gz", "u", some 1048576, some 1751328000000000⟩])]⟩
      ).2.1.max_total_size_mb :=
  consumed_le_aggregate_cap.1 (fun _ => true) (Crawler.init 5 100 [])
    ⟨some "1.0", [("1.0", [⟨"pkg-1.0.tar.gz", "u", some 1048576, some 1751328000000000⟩])]⟩
    (by norm_num [Crawler.init])

/-! ## C4 -/

/-- The first selection pass is a first-match scan for an under-cap
`.tar.gz`. -/
lemma find_tar_gz_eq_find? (m : ℚ) (rels : List ReleaseFile) :
    find_tar_gz m rels =
      rels.find? fun f => ends_with f.filename ".tar.gz" && decide (get_file_size_mb f ≤ m) := by
  induction rels with
  | nil => rfl
  | cons f rest ih =>
    by_cases hc : ends_with f.filename ".tar.gz" = true ∧ get_file_size_mb f ≤ m
    · simp [find_tar_gz, List.find?, hc.1, hc.2]
    · have hb : (ends_with f.filename ".tar.gz" && decide (get_file_size_mb f ≤ m)) = false := by
        simpa [Bool.and_eq_true, decide_eq_true_eq] using hc
      simp [find_tar_gz, if_neg hc, List.find?, hb, ih]

/-- The second selection pass is a first-match scan for an under-cap
`.whl`. -/
lemma find_whl_eq_find? (m : ℚ) (rels : List ReleaseFile) :
    find_whl m rels =
      rels.find? fun f => ends_with f.filename ".whl" && decide (get_file_size_mb f ≤ m) := by
  induction rels with
  | nil => rfl
  | cons f rest ih =>
    by_cases hc : ends_with f.filename ".whl" = true ∧ get_file_size_mb f ≤ m
    · simp [find_whl, List.find?, hc.1, hc.2]
    · have hb : (ends_with f.filename ".whl" && decide (get_file_size_mb f ≤ m)) = false := by
        simpa [Bool.and_eq_true, decide_eq_true_eq] using hc
      simp [find_whl, if_neg hc, List.find?, hb, ih]

/-- A file returned by the first pass is an under-cap `.tar.gz`. -/
lemma find_tar_gz_spec (m : ℚ) (rels : List ReleaseFile) (f : ReleaseFile)
    (h : find_tar_gz m rels = some f) :
    ends_with f.filename ".tar.gz" = true ∧ get_file_size_mb f ≤ m := by
  rw [find_tar_gz_eq_find?] at h
  simpa [Bool.and_eq_true, decide_eq_true_eq] using List.find?_some h

/-- A file returned by the second pass is an under-cap `.whl`. -/
lemma find_whl_spec (m : ℚ) (rels : List ReleaseFile) (f : ReleaseFile)
    (h : find_whl m rels = some f) :
    ends_with f.filename ".whl" = true ∧ get_file_size_mb f ≤ m := by
  rw [find_whl_eq_find?] at h
  simpa [Bool.and_eq_true, decide_eq_true_eq] using List.find?_some h

/-- C4: the Artifact Selector returns the first under-cap
source-distribution (`.tar.gz`) file of the latest version's release
list, else the first under-cap wheel (`.whl`), else nothing; any chosen
file's size is ≤ the per-file cap, and whenever an under-cap source
distribution is present at all, the chosen file is a source
distribution. -/
theorem artifact_selector_spec (m : ℚ) (rels : List ReleaseFile) :
    (suitable_file m rels =
      match rels.find? (fun f => ends_with f.filename ".tar.gz" && decide (get_file_size_mb f ≤ m))
        with
      | some f => some f
      | none =>
        rels.find? fun f => ends_with f.filename ".whl" && decide (get_file_size_mb f ≤ m)) ∧
    (∀ f, suitable_file m rels = some f → get_file_size_mb f ≤ m) ∧
    ((∃ g ∈ rels, ends_with g.filename ".tar.gz" = true ∧ get_file_size_mb g ≤ m) →
      ∃ f, suitable_file m rels = some f ∧ ends_with f.filename ".tar.gz" = true ∧
        get_file_size_mb f ≤ m) := by
  refine ⟨?_, ?_, ?_⟩
  · rw [suitable_file, find_tar_gz_eq_find?, find_whl_eq_find?]
  · intro f h
    rw [suitable_file] at h
    rcases ht : find_tar_gz m rels with _ | g
    · rw [ht] at h
      exact (find_whl_spec m rels f h).2
    · rw [ht] at h
      obtain rfl : g = f := by simpa using h
      exact (find_tar_gz_spec m rels g ht).2
  · rintro ⟨g, hg, hsfx, hsize⟩
    have hsome : (rels.find? fun f =>
        ends_with f.filename ".tar.gz" && decide (get_file_size_mb f ≤ m)).isSome := by
      rw [List.find?_isSome]
      exact ⟨g, hg, by simp [hsfx, hsize]⟩
    rcases hf : rels.find? (fun f =>
        ends_with f.filename ".tar.gz" && decide (get_file_size_mb f ≤ m)) with _ | f
    · rw [hf] at hsome; simp at hsome
    · have htg : find_tar_gz m rels = some f := by rw [find_tar_gz_eq_find?, hf]
      exact ⟨f, by rw [suitable_file, htg], find_tar_gz_spec m rels f htg⟩

/-- Witness for C4: with an under-cap wheel listed before an under-cap
source distribution, the source distribution is chosen. -/
theorem artifact_selector_spec_witness :
    ∃ f, suitable_file 100
        [⟨"pkg-1.0-py3-none-any.whl", "u1", some 1048576, some 1751328000000000⟩,
         ⟨"pkg-1.0.tar.gz", "u2", some 2097152, some 1751328000000000⟩] = some f ∧
      ends_with f.filename ".tar.gz" = true ∧ get_file_size_mb f ≤ 100 :=
  (artifact_selector_spec 100
      [⟨"pkg-1.0-py3-none-any.whl", "u1", some 1048576, some 1751328000000000⟩,
       ⟨"pkg-1.0.tar.gz", "u2", some 2097152, some 1751328000000000⟩]).2.2
    ⟨⟨"pkg-1.0.tar.gz", "u2", some 2097152, some 1751328000000000⟩,
      by decide, by decide, by norm_num [get_file_size_mb]⟩

/-! ## C5 -/

/-- C5: the Eligibility Filter accepts exactly when the latest version is
present in the releases mapping, its release-file list is non-empty, the
first file's upload timestamp parsed, and the parsed instant is at or
after the fixed 2025-07-01 cutoff (equality included); every missing
field, empty list or failed parse yields `false` rather than an error
(the filter is a total boolean function). -/
theorem eligibility_filter_spec (info : PackageInfo) :
    is_updated_since_july_2025 info = true ↔
      ∃ latest_version releases first_file upload_date,
        info.version = some latest_version ∧
        info.releases.lookup latest_version = some releases ∧
        releases.head? = some first_file ∧
        first_file.upload_time = some upload_date ∧
        july_2025_cutoff ≤ upload_date := by
  constructor
  · intro h
    rcases hv : info.version with _ | v
    · simp [is_updated_since_july_2025, hv] at h
    rcases hr : info.releases.lookup v with _ | rels
    · simp [is_updated_since_july_2025, hv, hr] at h
    rcases rels with _ | ⟨f, rest⟩
    · simp [is_updated_since_july_2025, hv, hr] at h
    rcases ht : f.upload_time with _ | t
    · simp [is_updated_since_july_2025, hv, hr, ht] at h
    exact ⟨v, f :: rest, f, t, rfl, hr, rfl, ht,
      by simpa [is_updated_since_july_2025, hv, hr, ht] using h⟩
  · rintro ⟨v, rels, f, t, hv, hr, hh, ht, hle⟩
    rcases rels with _ | ⟨f0, rest⟩
    · simp at hh
    obtain rfl : f0 = f := by simpa using hh
    simp [is_updated_since_july_2025, hv, hr, ht, hle]

/-- Witness for C5: a first file uploaded exactly at the cutoff instant
is eligible. -/
theorem eligibility_filter_spec_witness :
    is_updated_since_july_2025
      ⟨some "1.0",
       [("1.0", [⟨"pkg-1.0.tar.gz", "u", some 1048576, some 1751328000000000⟩])]⟩ = true :=
  (eligibility_filter_spec
      ⟨some "1.0",
       [("1.0", [⟨"pkg-1.0.tar.gz", "u", some 1048576, some 1751328000000000⟩])]⟩).mpr
    ⟨"1.0", [⟨"pkg-1.0.tar.gz", "u", some 1048576, some 1751328000000000⟩],
     ⟨"pkg-1.0.tar.gz", "u", some 1048576, some 1751328000000000⟩, 1751328000000000,
     rfl, rfl, rfl, rfl, le_refl _⟩

/-! ## C2 -/

/-- The transport-failure path of `download_package`: a selected,
budget-admitted, not-yet-stored file whose `GET` fails yields `False`
with the crawler state unchanged — the exception at source line 110/111
is raised before the `current_total_size` update at line 116 ever runs. -/
lemma download_package_transport_failure
    (fetch_ok : String → Bool) (c : Crawler) (info : PackageInfo)
    (latest_version : String) (releases : List ReleaseFile) (file_info : ReleaseFile)
    (hv : info.version = some latest_version)
    (hr : info.releases.lookup latest_version = some releases)
    (hf : suitable_file c.max_size_mb releases = some file_info)
    (hadm : c.current_total_size + get_file_size_mb file_info ≤ c.max_total_size_mb)
    (hstore : file_info.filename ∉ c.store)
    (hfail : fetch_ok file_info.url = false) :
    download_package fetch_ok c info = (false, c, [Event.fetchArtifact file_info.url]) := by
  have h1 : ¬ c.max_total_size_mb < c.current_total_size + get_file_size_mb file_info :=
    not_lt.mpr hadm
  simp [download_package, hv, hr, hf, h1, hstore, hfail]

/-- Counterexample to C2: a 1 MB file passes admission, its fetch fails,
and the executor returns `False` with `current_total_size` still 0 — the
declared size was *not* charged, contradicting the claimed optimistic
before-fetch consumption. -/
theorem optimistic_reservation_counterexample :
    (download_package (fun _ => false) (Crawler.init 5 100 [])
        ⟨some "1.0",
         [("1.0", [⟨"pkg-1.0.tar.gz", "u", some 1048576, some 1751328000000000⟩])]⟩) =
      (false, Crawler.init 5 100 [], [Event.fetchArtifact "u"]) ∧
    get_file_size_mb ⟨"pkg-1.0.tar.gz", "u", some 1048576, some 1751328000000000⟩ = 1 ∧
    (Crawler.init 5 100 []).current_total_size = 0 := by
  refine ⟨?_, by norm_num [get_file_size_mb], rfl⟩
  exact download_package_transport_failure (fun _ => false) (Crawler.init 5 100 [])
    ⟨some "1.0", [("1.0", [⟨"pkg-1.0.tar.gz", "u", some 1048576, some 1751328000000000⟩])]⟩
    "1.0" [⟨"pkg-1.0.tar.gz", "u", some 1048576, some 1751328000000000⟩]
    ⟨"pkg-1.0.tar.gz", "u", some 1048576, some 1751328000000000⟩
    rfl (by decide)
    (by norm_num [suitable_file, find_tar_gz, get_file_size_mb, Crawler.init,
      (by decide : ends_with "pkg-1.0.tar.gz" ".tar.gz" = true)])
    (by norm_num [Crawler.init, get_file_size_mb]) (by decide) rfl

/-- C2 (amended): budget is consumed only after a successful fetch and
write; when the fetch of an admitted, not-yet-stored file fails with a
transport error, the executor returns the failure outcome and
`current_total_size` is unchanged — nothing was recorded, so nothing
needs rolling back. -/
theorem transport_failure_spec
    (fetch_ok : String → Bool) (c : Crawler) (info : PackageInfo)
    (latest_version : String) (releases : List ReleaseFile) (file_info : ReleaseFile)
    (hv : info.version = some latest_version)
    (hr : info.releases.lookup latest_version = some releases)
    (hf : suitable_file c.max_size_mb releases = some file_info)
    (hadm : c.current_total_size + get_file_size_mb file_info ≤ c.max_total_size_mb)
    (hstore : file_info.filename ∉ c.store)
    (hfail : fetch_ok file_info.url = false) :
    (download_package fetch_ok c info).1 = false ∧
    (download_package fetch_ok c info).2.1.current_total_size = c.current_total_size := by
  rw [download_package_transport_failure fetch_ok c info latest_version releases file_info
    hv hr hf hadm hstore hfail]
  exact ⟨rfl, rfl⟩

/-- Witness for C2 (amended) at a concrete crawler and package. -/
theorem transport_failure_spec_witness :
    (download_package (fun _ => false) (Crawler.init 5 100 [])
        ⟨some "1.0",
         [("1.0", [⟨"pkg-1.0.tar.gz", "u", some 1048576, some 1751328000000000⟩])]⟩).1 = false ∧
    (download_package (fun _ => false) (Crawler.init 5 100 [])
        ⟨some "1.0",
         [("1.0", [⟨"pkg-1.0.tar.gz", "u", some 1048576, some 1751328000000000⟩])]⟩
      ).2.1.current_total_size = (Crawler.init 5 100 []).current_total_size :=
  transport_failure_spec (fun _ => false) (Crawler.init 5 100 [])
    ⟨some "1.0", [("1.0", [⟨"pkg-1.0.tar.gz", "u", some 1048576, some 1751328000000000⟩])]⟩
    "1.0" [⟨"pkg-1.0.tar.gz", "u", some 1048576, some 1751328000000000⟩]
    ⟨"pkg-1.0.tar.gz", "u", some 1048576, some 1751328000000000⟩
    rfl (by decide)
    (by norm_num [suitable_file, find_tar_gz, get_file_size_mb, Crawler.init,
      (by decide : ends_with "pkg-1.0.tar.gz" ".tar.gz" = true)])
    (by norm_num [Crawler.init, get_file_size_mb]) (by decide) rfl

/-! ## C3 -/

/-- The idempotent short-circuit of `download_package` — but only after
the aggregate-budget check at source line 96 has passed: an admitted,
already-stored file returns `True` with no state change and no events. -/
lemma download_package_shortcircuit
    (fetch_ok : String → Bool) (c : Crawler) (info : PackageInfo)
    (latest_version : String) (releases : List ReleaseFile) (file_info : ReleaseFile)
    (hv : info.version = some latest_version)
    (hr : info.releases.lookup latest_version = some releases)
    (hf : suitable_file c.max_size_mb releases = some file_info)
    (hadm : c.current_total_size + get_file_size_mb file_info ≤ c.max_total_size_mb)
    (hmem : file_info.filename ∈ c.store) :
    download_package fetch_ok c info = (true, c, []) := by
  have h1 : ¬ c.max_total_size_mb < c.current_total_size + get_file_size_mb file_info :=
    not_lt.mpr hadm
  simp [download_package, hv, hr, hf, h1, hmem]

/-- The fresh-download success path of `download_package`: admitted, not
yet stored, fetch succeeds — one artifact fetch, one store write, size
added to the total. -/
lemma download_package_fresh
    (fetch_ok : String → Bool) (c : Crawler) (info : PackageInfo)
    (latest_version : String) (releases : List ReleaseFile) (file_info : ReleaseFile)
    (hv : info.version = some latest_version)
    (hr : info.releases.lookup latest_version = some releases)
    (hf : suitable_file c.max_size_mb releases = some file_info)
    (hadm : c.current_total_size + get_file_size_mb file_info ≤ c.max_total_size_mb)
    (hstore : file_info.filename ∉ c.store)
    (hok : fetch_ok file_info.url = true) :
    download_package fetch_ok c info =
      (true,
       { c with
          current_total_size := c.current_total_size + get_file_size_mb file_info
          store := file_info.filename :: c.store },
       [Event.fetchArtifact file_info.url, Event.storeWrite file_info.filename]) := by
  have h1 : ¬ c.max_total_size_mb < c.current_total_size + get_file_size_mb file_info :=
    not_lt.mpr hadm
  simp [download_package, hv, hr, hf, h1, hstore, hok]

/-- The aggregate-budget refusal path of `download_package` (source
lines 96-98): it precedes the existence check, so it fires even for an
already-stored file. -/
lemma download_package_budget_refused
    (fetch_ok : String → Bool) (c : Crawler) (info : PackageInfo)
    (latest_version : String) (releases : List ReleaseFile) (file_info : ReleaseFile)
    (hv : info.version = some latest_version)
    (hr : info.releases.lookup latest_version = some releases)
    (hf : suitable_file c.max_size_mb releases = some file_info)
    (hover : c.max_total_size_mb < c.current_total_size + get_file_size_mb file_info) :
    download_package fetch_ok c info = (false, c, []) := by
  simp [download_package, hv, hr, hf, hover]

/-- Counterexample to C3: the selected file's key is already in the
store, but the session total sits at the 500 MB cap, so the
aggregate-budget check (which runs *before* the existence check) refuses
and the executor returns `False`, not success. -/
theorem idempotent_shortcircuit_counterexample :
    "pkg-1.0.tar.gz" ∈ (⟨5, 100, 500, 500, ["pkg-1.0.tar.gz"]⟩ : Crawler).store ∧
    (download_package (fun _ => true) ⟨5, 100, 500, 500, ["pkg-1.0.tar.gz"]⟩
        ⟨some "1.0",
         [("1.0", [⟨"pkg-1.0.tar.gz", "u", some 1048576, some 1751328000000000⟩])]⟩) =
      (false, ⟨5, 100, 500, 500, ["pkg-1.0.tar.gz"]⟩, []) := by
  refine ⟨by decide, ?_⟩
  exact download_package_budget_refused (fun _ => true) ⟨5, 100, 500, 500, ["pkg-1.0.tar.gz"]⟩
    ⟨some "1.0", [("1.0", [⟨"pkg-1.0.tar.gz", "u", some 1048576, some 1751328000000000⟩])]⟩
    "1.0" [⟨"pkg-1.0.tar.gz", "u", some 1048576, some 1751328000000000⟩]
    ⟨"pkg-1.0.tar.gz", "u", some 1048576, some 1751328000000000⟩
    rfl (by decide)
    (by norm_num [suitable_file, find_tar_gz, get_file_size_mb,
      (by decide : ends_with "pkg-1.0.tar.gz" ".tar.gz" = true)])
    (by norm_num [get_file_size_mb])

/-- C3 (amended): the short-circuit holds only once the aggregate-budget
check admits the file's declared size.  For an admitted, already-stored
file the executor returns success with no consumption, no fetch and no
write; and after a fresh successful download, a second invocation for
the same candidate — provided the budget would still admit the size —
returns success again with no second fetch and no second consumption. -/
theorem idempotent_shortcircuit_spec :
    (∀ (fetch_ok : String → Bool) (c : Crawler) (info : PackageInfo)
       (latest_version : String) (releases : List ReleaseFile) (file_info : ReleaseFile),
      info.version = some latest_version →
      info.releases.lookup latest_version = some releases →
      suitable_file c.max_size_mb releases = some file_info →
      c.current_total_size + get_file_size_mb file_info ≤ c.max_total_size_mb →
      file_info.filename ∈ c.store →
      download_package fetch_ok c info = (true, c, [])) ∧
    (∀ (fetch_ok : String → Bool) (c : Crawler) (info : PackageInfo)
       (latest_version : String) (releases : List ReleaseFile) (file_info : ReleaseFile),
      info.version = some latest_version →
      info.releases.lookup latest_version = some releases →
      suitable_file c.max_size_mb releases = some file_info →
      (c.current_total_size + get_file_size_mb file_info) + get_file_size_mb file_info ≤
        c.max_total_size_mb →
      file_info.filename ∉ c.store →
      fetch_ok file_info.url = true →
      download_package fetch_ok c info =
        (true,
         { c with
            current_total_size := c.current_total_size + get_file_size_mb file_info
            store := file_info.filename :: c.store },
         [Event.fetchArtifact file_info.url, Event.storeWrite file_info.filename]) ∧
      download_package fetch_ok
          { c with
              current_total_size := c.current_total_size + get_file_size_mb file_info
              store := file_info.filename :: c.store } info =
        (true,
         { c with
            current_total_size := c.current_total_size + get_file_size_mb file_info
            store := file_info.filename :: c.store },
         [])) := by
  constructor
  · intro fetch_ok c info latest_version releases file_info hv hr hf hadm hmem
    exact download_package_shortcircuit fetch_ok c info latest_version releases file_info
      hv hr hf hadm hmem
  · intro fetch_ok c info latest_version releases file_info hv hr hf hadm2 hstore hok
    have hsz : 0 ≤ get_file_size_mb file_info := by
      rw [get_file_size_mb]
      positivity
    have hadm : c.current_total_size + get_file_size_mb file_info ≤ c.max_total_size_mb := by
      linarith
    refine ⟨download_package_fresh fetch_ok c info latest_version releases file_info
      hv hr hf hadm hstore hok, ?_⟩
    exact download_package_shortcircuit fetch_ok
      { c with
          current_total_size := c.current_total_size + get_file_size_mb file_info
          store := file_info.filename :: c.store }
      info latest_version releases file_info hv hr hf hadm2 (List.mem_cons_self _ _)

/-- Witness for C3 (amended): a fresh 1 MB download followed by a second
invocation of the executor for the same candidate — success twice, one
fetch and one write in total, one budget consumption. -/
theorem idempotent_shortcircuit_spec_witness :
    download_package (fun _ => true) (Crawler.init 5 100 [])
        ⟨some "1.0",
         [("1.0", [⟨"pkg-1.0.tar.gz", "u", some 1048576, some 1751328000000000⟩])]⟩ =
      (true,
       { Crawler.init 5 100 [] with
          current_total_size := (Crawler.init 5 100 []).current_total_size +
            get_file_size_mb ⟨"pkg-1.0.tar.gz", "u", some 1048576, some 1751328000000000⟩
          store := "pkg-1.0.tar.gz" :: (Crawler.init 5 100 []).store },
       [Event.fetchArtifact "u", Event.storeWrite "pkg-1.0.tar.gz"]) ∧
    download_package (fun _ => true)
        { Crawler.init 5 100 [] with
            current_total_size := (Crawler.init 5 100 []).current_total_size +
              get_file_size_mb ⟨"pkg-1.0.tar.gz", "u", some 1048576, some 1751328000000000⟩
            store := "pkg-1.0.tar.gz" :: (Crawler.init 5 100 []).store }
        ⟨some "1.0",
         [("1.0", [⟨"pkg-1.0.tar.gz", "u", some 1048576, some 1751328000000000⟩])]⟩ =
      (true,
       { Crawler.init 5 100 [] with
          current_total_size := (Crawler.init 5 100 []).current_total_size +
            get_file_size_mb ⟨"pkg-1.0.tar.gz", "u", some 1048576, some 1751328000000000⟩
          store := "pkg-1.0.tar.gz" :: (Crawler.init 5 100 []).store },
       []) :=
  idempotent_shortcircuit_spec.2 (fun _ => true) (Crawler.init 5 100 [])
    ⟨some "1.0", [("1.0", [⟨"pkg-1.0.tar.gz", "u", some 1048576, some 1751328000000000⟩])]⟩
    "1.0" [⟨"pkg-1.0.tar.gz", "u", some 1048576, some 1751328000000000⟩]
    ⟨"pkg-1.0.tar.gz", "u", some 1048576, some 1751328000000000⟩
    rfl (by decide)
    (by norm_num [suitable_file, find_tar_gz, get_file_size_mb, Crawler.init,
      (by decide : ends_with "pkg-1.0.tar.gz" ".tar.gz" = true)])
    (by norm_num [Crawler.init, get_file_size_mb]) (by decide) rfl

/-! ## C6 -/

/-- `download_package` emits at most an artifact fetch and a store
write: never a metadata fetch, never a delay. -/
lemma download_package_events (fetch_ok : String → Bool) (c : Crawler) (info : PackageInfo) :
    (download_package fetch_ok c info).2.2 = [] ∨
    (∃ u, (download_package fetch_ok c info).2.2 = [Event.fetchArtifact u]) ∨
    (∃ u fn, (download_package fetch_ok c info).2.2 =
      [Event.fetchArtifact u, Event.storeWrite fn]) := by
  rcases hv : info.version with _ | v
  · exact Or.inl (by simp [download_package, hv])
  rcases hr : info.releases.lookup v with _ | rels
  · exact Or.inl (by simp [download_package, hv, hr])
  rcases hf : suitable_file c.max_size_mb rels with _ | f
  · exact Or.inl (by simp [download_package, hv, hr, hf])
  by_cases h1 : c.max_total_size_mb < c.current_total_size + get_file_size_mb f
  · exact Or.inl (by simp [download_package, hv, hr, hf, h1])
  by_cases h2 : f.filename ∈ c.store
  · exact Or.inl (by simp [download_package, hv, hr, hf, h1, h2])
  by_cases h3 : fetch_ok f.url
  · exact Or.inr (Or.inr ⟨f.url, f.filename,
      by simp [download_package, hv, hr, hf, h1, h2, h3]⟩)
  · exact Or.inr (Or.inl ⟨f.url, by simp [download_package, hv, hr, hf, h1, h2, h3]⟩)

/-- No metadata-fetch event ever originates from the executor. -/
lemma download_package_no_fetchInfo (fetch_ok : String → Bool) (c : Crawler)
    (info : PackageInfo) (n : String) :
    Event.fetchInfo n ∉ (download_package fetch_ok c info).2.2 := by
  rcases download_package_events fetch_ok c info with h | ⟨u, h⟩ | ⟨u, fn, h⟩ <;> simp [h]

/-- No delay event ever originates from the executor. -/
lemma download_package_no_delay (fetch_ok : String → Bool) (c : Crawler)
    (info : PackageInfo) :
    Event.delay ∉ (download_package fetch_ok c info).2.2 := by
  rcases download_package_events fetch_ok c info with h | ⟨u, h⟩ | ⟨u, fn, h⟩ <;> simp [h]

/-- The executor never changes `max_packages`. -/
lemma download_package_max_packages (fetch_ok : String → Bool) (c : Crawler)
    (info : PackageInfo) :
    (download_package fetch_ok c info).2.1.max_packages = c.max_packages := by
  rcases download_package_shape fetch_ok c info with hs | ⟨v, rels, f, _, _, _, _, hs⟩ <;>
    rw [hs]

/-- C6: with the maximum successful-download count set to 2 and three
candidates of which the first two fetch, pass the filter and download
successfully, the session downloads exactly the first two and breaks at
the top of the third iteration: the final result lists `[a, b]`, the
state is the one after the second download, and the trace holds no
metadata fetch for the third candidate. -/
theorem early_termination
    (get_info : String → Option PackageInfo) (fetch_ok : String → Bool)
    (max_size_mb : ℚ) (store : List String) (a b x : String)
    (pa pb : PackageInfo) (c1 c2 : Crawler) (evA evB : List Event)
    (hxa : x ≠ a) (hxb : x ≠ b)
    (ha : get_info a = some pa) (hea : is_updated_since_july_2025 pa = true)
    (hda : download_package fetch_ok (Crawler.init 2 max_size_mb store) pa = (true, c1, evA))
    (hb : get_info b = some pb) (heb : is_updated_since_july_2025 pb = true)
    (hdb : download_package fetch_ok c1 pb = (true, c2, evB)) :
    crawl_and_download get_info fetch_ok (Crawler.init 2 max_size_mb store) [a, b, x] =
      ([a, b], c2,
       Event.fetchInfo a :: (evA ++ Event.delay ::
         (Event.fetchInfo b :: (evB ++ [Event.delay])))) ∧
    Event.fetchInfo x ∉
      (crawl_and_download get_info fetch_ok (Crawler.init 2 max_size_mb store) [a, b, x]).2.2 := by
  have hmp1 : c1.max_packages = 2 := by
    have h := download_package_max_packages fetch_ok (Crawler.init 2 max_size_mb store) pa
    rw [hda] at h
    simpa [Crawler.init] using h
  have hmp2 : c2.max_packages = 2 := by
    have h := download_package_max_packages fetch_ok c1 pb
    rw [hdb] at h
    simpa [hmp1] using h
  have hmain : crawl_and_download get_info fetch_ok (Crawler.init 2 max_size_mb store)
      [a, b, x] =
      ([a, b], c2,
       Event.fetchInfo a :: (evA ++ Event.delay ::
         (Event.fetchInfo b :: (evB ++ [Event.delay])))) := by
    have hinit : (Crawler.init 2 max_size_mb store).max_packages = 2 := rfl
    simp [crawl_and_download, crawl_loop, hinit, ha, hea, hda, hb, heb, hdb, hmp1, hmp2]
  refine ⟨hmain, ?_⟩
  rw [hmain]
  have hA : Event.fetchInfo x ∉ evA := by
    have h := download_package_no_fetchInfo fetch_ok (Crawler.init 2 max_size_mb store) pa x
    rw [hda] at h
    exact h
  have hB : Event.fetchInfo x ∉ evB := by
    have h := download_package_no_fetchInfo fetch_ok c1 pb x
    rw [hdb] at h
    exact h
  simp [hxa, hxb, hA, hB]

/-- Witness for C6: a concrete three-candidate session with cap 2. -/
theorem early_termination_witness :
    crawl_and_download
        (fun n => if n = "a" then
            some ⟨some "1.0", [("1.0", [⟨"a-1.0.tar.gz", "ua", some 1048576,
              some 1751328000000000⟩])]⟩
          else if n = "b" then
            some ⟨some "2.0", [("2.0", [⟨"b-2.0.tar.gz", "ub", some 1048576,
              some 1751328000000000⟩])]⟩
          else none)
        (fun _ => true) (Crawler.init 2 100 []) ["a", "b", "x"] =
      (["a", "b"], ⟨2, 100, 500, 2, ["b-2.0.tar.gz", "a-1.0.tar.gz"]⟩,
       Event.fetchInfo "a" :: ([Event.fetchArtifact "ua", Event.storeWrite "a-1.0.tar.gz"] ++
         Event.delay :: (Event.fetchInfo "b" ::
           ([Event.fetchArtifact "ub", Event.storeWrite "b-2.0.tar.gz"] ++
             [Event.delay])))) ∧
    Event.fetchInfo "x" ∉
      (crawl_and_download
          (fun n => if n = "a" then
              some ⟨some "1.0", [("1.0", [⟨"a-1.0.tar.gz", "ua", some 1048576,
                some 1751328000000000⟩])]⟩
            else if n = "b" then
              some ⟨some "2.0", [("2.0", [⟨"b-2.0.tar.gz", "ub", some 1048576,
                some 1751328000000000⟩])]⟩
            else none)
          (fun _ => true) (Crawler.init 2 100 []) ["a", "b", "x"]).2.2 :=
  early_termination
    (fun n => if n = "a" then
        some ⟨some "1.0", [("1.0", [⟨"a-1.0.tar.gz", "ua", some 1048576,
          some 1751328000000000⟩])]⟩
      else if n = "b" then
        some ⟨some "2.0", [("2.0", [⟨"b-2.0.tar.gz", "ub", some 1048576,
          some 1751328000000000⟩])]⟩
      else none)
    (fun _ => true) 100 [] "a" "b" "x"
    ⟨some "1.0", [("1.0", [⟨"a-1.0.tar.gz", "ua", some 1048576, some 1751328000000000⟩])]⟩
    ⟨some "2.0", [("2.0", [⟨"b-2.0.tar.gz", "ub", some 1048576, some 1751328000000000⟩])]⟩
    ⟨2, 100, 500, 1, ["a-1.0.tar.gz"]⟩ ⟨2, 100, 500, 2, ["b-2.0.tar.gz", "a-1.0.tar.gz"]⟩
    [Event.fetchArtifact "ua", Event.storeWrite "a-1.0.tar.gz"]
    [Event.fetchArtifact "ub", Event.storeWrite "b-2.0.tar.gz"]
    (by decide) (by decide) (by decide) (by decide)
    (by
      rw [download_package_fresh (fun _ => true) (Crawler.init 2 100 [])
        ⟨some "1.0", [("1.0", [⟨"a-1.0.tar.gz", "ua", some 1048576, some 1751328000000000⟩])]⟩
        "1.0" [⟨"a-1.0.tar.gz", "ua", some 1048576, some 1751328000000000⟩]
        ⟨"a-1.0.tar.gz", "ua", some 1048576, some 1751328000000000⟩
        rfl (by decide)
        (by norm_num [suitable_file, find_tar_gz, get_file_size_mb, Crawler.init,
          (by decide : ends_with "a-1.0.tar.gz" ".tar.gz" = true)])
        (by norm_num [Crawler.init, get_file_size_mb]) (by decide) rfl]
      norm_num [Crawler.init, get_file_size_mb])
    (by decide) (by decide)
    (by
      rw [download_package_fresh (fun _ => true) ⟨2, 100, 500, 1, ["a-1.0.tar.gz"]⟩
        ⟨some "2.0", [("2.0", [⟨"b-2.0.tar.gz", "ub", some 1048576, some 1751328000000000⟩])]⟩
        "2.0" [⟨"b-2.0.tar.gz", "ub", some 1048576, some 1751328000000000⟩]
        ⟨"b-2.0.tar.gz", "ub", some 1048576, some 1751328000000000⟩
        rfl (by decide)
        (by norm_num [suitable_file, find_tar_gz, get_file_size_mb,
          (by decide : ends_with "b-2.0.tar.gz" ".tar.gz" = true)])
        (by norm_num [get_file_size_mb]) (by decide) rfl]
      norm_num [get_file_size_mb])

/-! ## C9 -/

/-- Counterexample to C9: a candidate whose metadata fetch fails is
skipped by `continue` (source line 292), which jumps past the
`time.sleep(0.5)` at line 305 — the iteration's trace holds no delay
event at all. -/
theorem inter_candidate_delay_counterexample :
    crawl_and_download (fun _ => none) (fun _ => true) (Crawler.init 5 100 []) ["pkg"] =
      ([], Crawler.init 5 100 [], [Event.fetchInfo "pkg"]) ∧
    Event.delay ∉ [Event.fetchInfo "pkg"] := by
  constructor
  · have hinit : (Crawler.init 5 100 []).max_packages = 5 := rfl
    simp [crawl_and_download, crawl_loop, hinit]
  · decide

/-- C9 (amended): the fixed inter-candidate delay is observed only for
candidates that reach the download step — whatever its outcome
(selection absent, budget-skipped, failed or success, the loop body runs
through to the sleep); candidates dropped by `continue` for missing
metadata or ineligibility contribute a metadata-fetch event only, with
no delay. -/
theorem inter_candidate_delay_spec
    (get_info : String → Option PackageInfo) (fetch_ok : String → Bool)
    (package_name : String) (rest : List String) (c : Crawler) (downloaded_count : ℕ)
    (h : downloaded_count < c.max_packages) :
    (get_info package_name = none →
      crawl_loop get_info fetch_ok (package_name :: rest) c downloaded_count =
        ((crawl_loop get_info fetch_ok rest c downloaded_count).1,
         (crawl_loop get_info fetch_ok rest c downloaded_count).2.1,
         Event.fetchInfo package_name ::
           (crawl_loop get_info fetch_ok rest c downloaded_count).2.2)) ∧
    (∀ info, get_info package_name = some info →
      is_updated_since_july_2025 info = false →
      crawl_loop get_info fetch_ok (package_name :: rest) c downloaded_count =
        ((crawl_loop get_info fetch_ok rest c downloaded_count).1,
         (crawl_loop get_info fetch_ok rest c downloaded_count).2.1,
         Event.fetchInfo package_name ::
           (crawl_loop get_info fetch_ok rest c downloaded_count).2.2)) ∧
    (∀ info ok c' devs, get_info package_name = some info →
      is_updated_since_july_2025 info = true →
      download_package fetch_ok c info = (ok, c', devs) →
      Event.delay ∉ devs ∧
      crawl_loop get_info fetch_ok (package_name :: rest) c downloaded_count =
        ((if ok then package_name ::
            (crawl_loop get_info fetch_ok rest c' (downloaded_count + if ok then 1 else 0)).1
          else
            (crawl_loop get_info fetch_ok rest c' (downloaded_count + if ok then 1 else 0)).1),
         (crawl_loop get_info fetch_ok rest c' (downloaded_count + if ok then 1 else 0)).2.1,
         Event.fetchInfo package_name :: (devs ++ Event.delay ::
           (crawl_loop get_info fetch_ok rest c'
             (downloaded_count + if ok then 1 else 0)).2.2))) := by
  have hn : ¬ c.max_packages ≤ downloaded_count := not_le.mpr h
  refine ⟨?_, ?_, ?_⟩
  · intro hi
    simp [crawl_loop, hn, hi]
  · intro info hi helig
    simp [crawl_loop, hn, hi, helig]
  · intro info ok c' devs hi helig hd
    constructor
    · have := download_package_no_delay fetch_ok c info
      rw [hd] at this
      exact this
    · simp [crawl_loop, hn, hi, helig, hd]

/-- Witness for C9 (amended): a candidate that is eligible but has no
suitable file reaches the download step, fails there, and the delay is
still appended after the (empty) download trace. -/
theorem inter_candidate_delay_spec_witness :
    Event.delay ∉ ([] : List Event) ∧
    crawl_loop
        (fun _ => some ⟨some "1.0",
          [("1.0", [⟨"pkg-1.0.zip", "u", some 0, some 1751328000000000⟩])]⟩)
        (fun _ => true) ["pkg"] (Crawler.init 5 100 []) 0 =
      ((if false then "pkg" ::
          (crawl_loop
            (fun _ => some ⟨some "1.0",
              [("1.0", [⟨"pkg-1.0.zip", "u", some 0, some 1751328000000000⟩])]⟩)
            (fun _ => true) [] (Crawler.init 5 100 []) (0 + if false then 1 else 0)).1
        else
          (crawl_loop
            (fun _ => some ⟨some "1.0",
              [("1.0", [⟨"pkg-1.0.zip", "u", some 0, some 1751328000000000⟩])]⟩)
            (fun _ => true) [] (Crawler.init 5 100 []) (0 + if false then 1 else 0)).1),
       (crawl_loop
         (fun _ => some ⟨some "1.0",
           [("1.0", [⟨"pkg-1.0.zip", "u", some 0, some 1751328000000000⟩])]⟩)
         (fun _ => true) [] (Crawler.init 5 100 []) (0 + if false then 1 else 0)).2.1,
       Event.fetchInfo "pkg" :: (([] : List Event) ++ Event.delay ::
         (crawl_loop
           (fun _ => some ⟨some "1.0",
             [("1.0", [⟨"pkg-1.0.zip", "u", some 0, some 1751328000000000⟩])]⟩)
           (fun _ => true) [] (Crawler.init 5 100 []) (0 + if false then 1 else 0)).2.2)) :=
  (inter_candidate_delay_spec
      (fun _ => some ⟨some "1.0",
        [("1.0", [⟨"pkg-1.0.zip", "u", some 0, some 1751328000000000⟩])]⟩)
      (fun _ => true) "pkg" [] (Crawler.init 5 100 []) 0 (by decide)).2.2
    ⟨some "1.0", [("1.0", [⟨"pkg-1.0.zip", "u", some 0, some 1751328000000000⟩])]⟩
    false (Crawler.init 5 100 []) [] rfl (by decide)
    (by simp [download_package, suitable_file, find_tar_gz, find_whl,
      (by decide : ends_with "pkg-1.0.zip" ".tar.gz" = false),
      (by decide : ends_with "pkg-1.0.zip" ".whl" = false)])

/-! ## C7 -/

/-- A feed that failed, or whose items contribute no candidate names,
leaves the per-URL loop where it was. -/
lemma rss_loop_nothing (max_packages : ℕ) (feed : Option (List (Option String)))
    (rest : List (Option (List (Option String))))
    (h : feed = none ∨ ∃ items, feed = some items ∧ (process_items [] items).1 = []) :
    rss_loop max_packages [] (feed :: rest) = rss_loop max_packages [] rest := by
  rcases h with rfl | ⟨items, rfl, hp⟩
  · rfl
  · rcases hq : process_items [] items with ⟨acc', b⟩
    obtain rfl : acc' = [] := by rw [hq] at hp; exact hp
    cases b
    · simp [rss_loop, hq]
    · simp [rss_loop, hq]

/-- Whatever the feeds hold, an early return from the per-URL loop is
truncated to `max_packages`. -/
lemma rss_loop_length (max_packages : ℕ) (feeds : List (Option (List (Option String)))) :
    ∀ (acc pkgs : List String),
      rss_loop max_packages acc feeds = some pkgs → pkgs.length ≤ max_packages := by
  induction feeds with
  | nil => intro acc pkgs h; simp [rss_loop] at h
  | cons feed rest ih =>
    intro acc pkgs h
    rcases feed with _ | items
    · rw [rss_loop] at h
      exact ih acc pkgs h
    · rw [rss_loop] at h
      rcases hq : process_items acc items with ⟨acc', b⟩
      rw [hq] at h
      cases b
      · exact ih acc' pkgs h
      · by_cases he : acc' = []
        · subst he
          simp only [ne_eq, not_true_eq_false, if_false] at h
          exact ih [] pkgs h
        · simp only [ne_eq, he, not_false_eq_true, if_true] at h
          obtain rfl : acc'.take max_packages = pkgs := by simpa using h
          simp [List.length_take]

/-- C7: when both RSS feeds fail or contribute zero candidate names, the
resolver returns exactly the hardcoded fallback list truncated to
`max_packages`; and in every case the returned list's length is at most
`max_packages`. -/
theorem fallback_and_truncation :
    (∀ (feed_updates feed_packages : Option (List (Option String))) (max_packages : ℕ),
      (feed_updates = none ∨
        ∃ items, feed_updates = some items ∧ (process_items [] items).1 = []) →
      (feed_packages = none ∨
        ∃ items, feed_packages = some items ∧ (process_items [] items).1 = []) →
      get_recent_packages_from_rss feed_updates feed_packages max_packages =
        get_popular_packages_fallback.take max_packages) ∧
    (∀ (feed_updates feed_packages : Option (List (Option String))) (max_packages : ℕ),
      (get_recent_packages_from_rss feed_updates feed_packages max_packages).length ≤
        max_packages) := by
  constructor
  · intro feed_updates feed_packages max_packages h1 h2
    have e : rss_loop max_packages [] [feed_updates, feed_packages] = none := by
      rw [rss_loop_nothing max_packages feed_updates [feed_packages] h1,
        rss_loop_nothing max_packages feed_packages [] h2]
      rfl
    simp [get_recent_packages_from_rss, e]
  · intro feed_updates feed_packages max_packages
    rcases hl : rss_loop max_packages [] [feed_updates, feed_packages] with _ | pkgs
    · simp [get_recent_packages_from_rss, hl, List.length_take]
    · have := rss_loop_length max_packages [feed_updates, feed_packages] [] pkgs hl
      simpa [get_recent_packages_from_rss, hl] using this

/-- Witness for C7: first feed errors out, second parses but has no
items — the result is the fallback list truncated to 3 names. -/
theorem fallback_and_truncation_witness :
    get_recent_packages_from_rss none (some []) 3 =
      get_popular_packages_fallback.take 3 :=
  fallback_and_truncation.1 none (some []) 3 (Or.inl rfl) (Or.inr ⟨[], rfl, rfl⟩)

/-! ## C8 -/

/-- Counterexample to C8: the artifact file already sits in the store
when the session starts (e.g. left over from an earlier run), so the
executor returns `True` through the idempotent short-circuit without any
write this session — yet the candidate's name is appended to the
manifest list.  The trace holds no store-write event at all. -/
theorem manifest_requires_write_counterexample :
    crawl_and_download
        (fun _ => some ⟨some "1.0",
          [("1.0", [⟨"d-1.0.tar.gz", "u", some 1048576, some 1751328000000000⟩])]⟩)
        (fun _ => true) (Crawler.init 5 100 ["d-1.0.tar.gz"]) ["d"] =
      (["d"], Crawler.init 5 100 ["d-1.0.tar.gz"], [Event.fetchInfo "d", Event.delay]) ∧
    (∀ fn, Event.storeWrite fn ∉ [Event.fetchInfo "d", Event.delay]) := by
  have hd := download_package_shortcircuit (fun _ => true)
    (Crawler.init 5 100 ["d-1.0.tar.gz"])
    ⟨some "1.0", [("1.0", [⟨"d-1.0.tar.gz", "u", some 1048576, some 1751328000000000⟩])]⟩
    "1.0" [⟨"d-1.0.tar.gz", "u", some 1048576, some 1751328000000000⟩]
    ⟨"d-1.0.tar.gz", "u", some 1048576, some 1751328000000000⟩
    rfl (by decide)
    (by norm_num [suitable_file, find_tar_gz, get_file_size_mb, Crawler.init,
      (by decide : ends_with "d-1.0.tar.gz" ".tar.gz" = true)])
    (by norm_num [Crawler.init, get_file_size_mb]) (by decide)
  constructor
  · have hinit : (Crawler.init 5 100 ["d-1.0.tar.gz"]).max_packages = 5 := rfl
    simp [crawl_and_download, crawl_loop, hinit, hd,
      (by decide : is_updated_since_july_2025
        ⟨some "1.0",
         [("1.0", [⟨"d-1.0.tar.gz", "u", some 1048576, some 1751328000000000⟩])]⟩ = true)]
  · intro fn
    simp

/-- C8 (amended): a candidate's name is appended to the manifest exactly
when `download_package` returns `True`, and `True` means the selected
file's key is in the Artifact Store when the call returns — either
through a fresh confirmed write this session (one fetch event and one
store-write event) or through the idempotent short-circuit on an entry
that already existed (no events, no write this session). -/
theorem manifest_only_on_success_spec
    (fetch_ok : String → Bool) (c : Crawler) (info : PackageInfo)
    (ok : Bool) (c' : Crawler) (evs : List Event)
    (hd : download_package fetch_ok c info = (ok, c', evs)) (hok : ok = true) :
    ∃ latest_version releases file_info,
      info.version = some latest_version ∧
      info.releases.lookup latest_version = some releases ∧
      suitable_file c.max_size_mb releases = some file_info ∧
      file_info.filename ∈ c'.store ∧
      ((file_info.filename ∈ c.store ∧ evs = [] ∧ c' = c) ∨
       (file_info.filename ∉ c.store ∧
        evs = [Event.fetchArtifact file_info.url, Event.storeWrite file_info.filename] ∧
        c' = { c with
                current_total_size := c.current_total_size + get_file_size_mb file_info
                store := file_info.filename :: c.store })) := by
  subst hok
  rcases hv : info.version with _ | v
  · simp [download_package, hv] at hd
  rcases hr : info.releases.lookup v with _ | rels
  · simp [download_package, hv, hr] at hd
  rcases hf : suitable_file c.max_size_mb rels with _ | f
  · simp [download_package, hv, hr, hf] at hd
  by_cases h1 : c.max_total_size_mb < c.current_total_size + get_file_size_mb f
  · simp [download_package, hv, hr, hf, h1] at hd
  by_cases h2 : f.filename ∈ c.store
  · have he := (download_package_shortcircuit fetch_ok c info v rels f hv hr hf
      (not_lt.mp h1) h2).symm.trans hd
    simp only [Prod.mk.injEq, true_and] at he
    obtain ⟨rfl, rfl⟩ := he
    exact ⟨v, rels, f, rfl, hr, hf, h2, Or.inl ⟨h2, rfl, rfl⟩⟩
  by_cases h3 : fetch_ok f.url
  · have he := (download_package_fresh fetch_ok c info v rels f hv hr hf
      (not_lt.mp h1) h2 h3).symm.trans hd
    simp only [Prod.mk.injEq, true_and] at he
    obtain ⟨rfl, rfl⟩ := he
    exact ⟨v, rels, f, rfl, hr, hf, List.mem_cons_self _ _,
      Or.inr ⟨h2, rfl, rfl⟩⟩
  · have he := (download_package_transport_failure fetch_ok c info v rels f hv hr hf
      (not_lt.mp h1) h2 (by simpa using h3)).symm.trans hd
    simp at he

/-- Witness for C8 (amended) at a concrete short-circuit success. -/
theorem manifest_only_on_success_spec_witness :
    ∃ latest_version releases file_info,
      (⟨some "1.0",
        [("1.0", [⟨"d-1.0.tar.gz", "u", some 1048576, some 1751328000000000⟩])]⟩ :
          PackageInfo).version = some latest_version ∧
      (⟨some "1.0",
        [("1.0", [⟨"d-1.0.tar.gz", "u", some 1048576, some 1751328000000000⟩])]⟩ :
          PackageInfo).releases.lookup latest_version = some releases ∧
      suitable_file (Crawler.init 5 100 ["d-1.0.tar.gz"]).max_size_mb releases =
        some file_info ∧
      file_info.filename ∈ (Crawler.init 5 100 ["d-1.0.tar.gz"]).store ∧
      ((file_info.filename ∈ (Crawler.init 5 100 ["d-1.0.tar.gz"]).store ∧
          ([] : List Event) = [] ∧
          Crawler.init 5 100 ["d-1.0.tar.gz"] = Crawler.init 5 100 ["d-1.0.tar.gz"]) ∨
       (file_info.filename ∉ (Crawler.init 5 100 ["d-1.0.tar.gz"]).store ∧
          ([] : List Event) =
            [Event.fetchArtifact file_info.url, Event.storeWrite file_info.filename] ∧
          Crawler.init 5 100 ["d-1.0.tar.gz"] =
            { Crawler.init 5 100 ["d-1.0.tar.gz"] with
                current_total_size :=
                  (Crawler.init 5 100 ["d-1.0.tar.gz"]).current_total_size +
                    get_file_size_mb file_info
                store := file_info.filename ::
                  (Crawler.init 5 100 ["d-1.0.tar.gz"]).store })) :=
  manifest_only_on_success_spec (fun _ => true) (Crawler.init 5 100 ["d-1.0.tar.gz"])
    ⟨some "1.0", [("1.0", [⟨"d-1.0.tar.gz", "u", some 1048576, some 1751328000000000⟩])]⟩
    true (Crawler.init 5 100 ["d-1.0.tar.gz"]) []
    (download_package_shortcircuit (fun _ => true) (Crawler.init 5 100 ["d-1.0.tar.gz"])
      ⟨some "1.0", [("1.0", [⟨"d-1.0.tar.gz", "u", some 1048576, some 1751328000000000⟩])]⟩
      "1.0" [⟨"d-1.0.tar.gz", "u", some 1048576, some 1751328000000000⟩]
      ⟨"d-1.0.tar.gz", "u", some 1048576, some 1751328000000000⟩
      rfl (by decide)
      (by norm_num [suitable_file, find_tar_gz, get_file_size_mb, Crawler.init,
        (by decide : ends_with "d-1.0.tar.gz" ".tar.gz" = true)])
      (by norm_num [Crawler.init, get_file_size_mb]) (by decide))
    rfl

/-! ## C10 -/

/-- C10: a release file with no declared size is treated as 0 bytes: its
computed megabyte size is 0, it passes the per-file cap check for every
non-negative cap, it is admitted by the aggregate-budget check whenever
the running total is within the cap, and a successful download of it
adds nothing to `current_total_size` (the transport oracle says nothing
about how many bytes would actually flow). -/
theorem missing_size_treated_as_zero :
    (∀ (filename url : String) (t : Option ℤ),
      get_file_size_mb ⟨filename, url, none, t⟩ = 0) ∧
    (∀ (m : ℚ) (filename url : String) (t : Option ℤ), 0 ≤ m →
      get_file_size_mb ⟨filename, url, none, t⟩ ≤ m) ∧
    (∀ (fetch_ok : String → Bool) (c : Crawler) (info : PackageInfo)
       (latest_version : String) (releases : List ReleaseFile) (file_info : ReleaseFile),
      info.version = some latest_version →
      info.releases.lookup latest_version = some releases →
      suitable_file c.max_size_mb releases = some file_info →
      file_info.size = none →
      c.current_total_size ≤ c.max_total_size_mb →
      file_info.filename ∉ c.store →
      fetch_ok file_info.url = true →
      (download_package fetch_ok c info).1 = true ∧
      (download_package fetch_ok c info).2.1.current_total_size = c.current_total_size) := by
  refine ⟨?_, ?_, ?_⟩
  · intro filename url t
    simp [get_file_size_mb]
  · intro m filename url t hm
    simpa [get_file_size_mb] using hm
  · intro fetch_ok c info latest_version releases file_info hv hr hf hsize hbud hstore hok
    have hz : get_file_size_mb file_info = 0 := by
      simp [get_file_size_mb, hsize]
    have hadm : c.current_total_size + get_file_size_mb file_info ≤ c.max_total_size_mb := by
      rw [hz, add_zero]; exact hbud
    rw [download_package_fresh fetch_ok c info latest_version releases file_info
      hv hr hf hadm hstore hok]
    exact ⟨rfl, by simp [hz]⟩

/-- Witness for C10: a sizeless `.tar.gz` downloads successfully and
leaves the running total untouched. -/
theorem missing_size_treated_as_zero_witness :
    (download_package (fun _ => true) (Crawler.init 5 100 [])
        ⟨some "1.0", [("1.0", [⟨"p-1.0.tar.gz", "u", none, some 1751328000000000⟩])]⟩).1 =
      true ∧
    (download_package (fun _ => true) (Crawler.init 5 100 [])
        ⟨some "1.0", [("1.0", [⟨"p-1.0.tar.gz", "u", none, some 1751328000000000⟩])]⟩
      ).2.1.current_total_size = (Crawler.init 5 100 []).current_total_size :=
  missing_size_treated_as_zero.2.2 (fun _ => true) (Crawler.init 5 100 [])
    ⟨some "1.0", [("1.0", [⟨"p-1.0.tar.gz", "u", none, some 1751328000000000⟩])]⟩
    "1.0" [⟨"p-1.0.tar.gz", "u", none, some 1751328000000000⟩]
    ⟨"p-1.0.tar.gz", "u", none, some 1751328000000000⟩
    rfl (by decide)
    (by norm_num [suitable_file, find_tar_gz, get_file_size_mb, Crawler.init,
      (by decide : ends_with "p-1.0.tar.gz" ".tar.gz" = true)])
    rfl (by norm_num [Crawler.init]) (by decide) rfl

end PyPICrawler
